import Mathlib

/-!
Verification of the authentication/session-continuity core of the
ailuyin repository (Express backend + React client).

The embedding below translates, function by function:
  * `src/utils/jwt.js` (src/unnamed/part_003): token issuer,
  * `src/config/memoryDb.js`: the in-memory user store and refresh-token
    ledger (a JS `Map` keyed by token string whose values are shared
    mutable objects — modelled with an explicit object heap plus a
    key-to-reference index, so that JS aliasing is preserved),
  * `src/controllers/authController.js`: register / login / refresh / logout,
  * `src/middleware/auth.js` (src/unnamed/part_004): authenticate / optionalAuth,
  * `src/routes/auth.js` (src/unnamed/part_002): express-validator rules,
  * the axios response interceptor of the client AuthContext
    (src/unnamed/part_006): the single-flight refresh queue.

Time is modelled as a natural number of milliseconds (`Date.now()`).
External libraries are abstracted: bcrypt comparison and validator.js
email checking become function parameters, and HMAC signing is modelled
by recording the signing secret in the token (a signature verifies iff
the recorded secret equals the verifier's secret).
-/

deriving instance DecidableEq for Except

namespace Ailuyin

/-- Milliseconds since the epoch, as produced by `Date.now()`. -/
abbrev Millis := Nat

/-! ### Token issuer — `src/utils/jwt.js` -/

/-- `JWT_SECRET` default value (`process.env.JWT_SECRET` unset). -/
def JWT_SECRET : String := "your-secret-key-change-in-production"

/-- `JWT_EXPIRES_IN = '15m'`, in milliseconds. -/
def JWT_EXPIRES_IN_MS : Nat := 15 * 60 * 1000

/-- `REFRESH_TOKEN_EXPIRES_IN = 7 * 24 * 60 * 60 * 1000` (7 days in ms). -/
def REFRESH_TOKEN_EXPIRES_IN : Nat := 7 * 24 * 60 * 60 * 1000

/-- A signed JWT as produced by `jwt.sign({userId, type}, JWT_SECRET,
{expiresIn})`.  `sig` models the HMAC: the token verifies against
`JWT_SECRET` iff `sig = JWT_SECRET`.  `exp` is the embedded expiry
instant. -/
structure SignedToken where
  userId : String
  type : String
  exp : Millis
  sig : String
deriving DecidableEq

/-- Errors thrown out of `verifyAccessToken`, identified the way the
middleware identifies them, by `error.name`: `jsonwebtoken` throws
`TokenExpiredError` and `JsonWebTokenError`; the hand-written type check
throws a plain `Error('Invalid token type')`. -/
inductive JwtError where
  | TokenExpiredError
  | JsonWebTokenError
  | InvalidTypeError
deriving DecidableEq

/-- `generateAccessToken(userId)`: signs `{userId, type: 'access'}` with
`JWT_SECRET` and a 15-minute expiry. -/
def generateAccessToken (userId : String) (now : Millis) : SignedToken :=
  { userId := userId, type := "access", exp := now + JWT_EXPIRES_IN_MS, sig := JWT_SECRET }

/-- `jwt.verify(token, JWT_SECRET)`: checks the signature first, then the
embedded expiry (`jsonwebtoken` treats `now ≥ exp` as expired), and only
then returns the decoded payload. -/
def jwtVerify (t : SignedToken) (now : Millis) : Except JwtError SignedToken :=
  if t.sig ≠ JWT_SECRET then .error .JsonWebTokenError
  else if t.exp ≤ now then .error .TokenExpiredError
  else .ok t

/-- `verifyAccessToken(token)`: `jwt.verify` then the
`decoded.type !== 'access'` check. -/
def verifyAccessToken (t : SignedToken) (now : Millis) : Except JwtError SignedToken :=
  match jwtVerify t now with
  | .error e => .error e
  | .ok decoded =>
      if decoded.type ≠ "access" then .error .InvalidTypeError else .ok decoded

/-- `getRefreshTokenExpiry()`: `new Date(Date.now() + REFRESH_TOKEN_EXPIRES_IN)`. -/
def getRefreshTokenExpiry (now : Millis) : Millis := now + REFRESH_TOKEN_EXPIRES_IN

/-! ### User store — `src/config/memoryDb.js`, `class UserModel` -/

/-- `email.split('@')[0]`: the part of the email before the first `'@'`
(the whole string when no `'@'` occurs). -/
def emailLocal (email : String) : String := (email.splitOn "@").headD ""

/-- JS `a || b` on an optional string: `undefined`/`''` are falsy. -/
def jsOrString (a : Option String) (b : String) : String :=
  match a with
  | none => b
  | some s => if s = "" then b else s

/-- A user record as built by the `UserModel` constructor.  Only the
fields the auth core reads are carried; `password` holds what the
constructor was given (the memory DB stores it verbatim and compares
with `bcrypt.compare`). -/
structure UserRec where
  _id : String
  email : String
  password : String
  nickname : String
  lastLoginAt : Option Millis
deriving DecidableEq

/-- `new UserModel(data)`: `nickname = data.nickname || data.email.split('@')[0]`;
`lastLoginAt = null`.  `freshId` stands for the generated `uuidv4()`. -/
def UserModel.new (freshId email password : String) (nickname : Option String) : UserRec :=
  { _id := freshId, email := email, password := password,
    nickname := jsOrString nickname (emailLocal email), lastLoginAt := none }

/-- The `users` map, keyed by `_id`; kept as a list of records in
insertion order. -/
abbrev UserStore := List UserRec

/-- `UserModel.findOne({email})`: first user whose email matches. -/
def UserModel.findOne (users : UserStore) (email : String) : Option UserRec :=
  users.find? (fun u => u.email = email)

/-- `UserModel.findById(id)`: `users.get(id)`. -/
def UserModel.findById (users : UserStore) (id : String) : Option UserRec :=
  users.find? (fun u => u._id = id)

/-- `user.save()`: `users.set(this._id, this)` — replace the record with
this `_id`, or insert it. -/
def UserModel.save (users : UserStore) (u : UserRec) : UserStore :=
  if users.any (fun v => v._id = u._id) then
    users.map (fun v => if v._id = u._id then u else v)
  else users ++ [u]

/-- `user.toJSON()`: a copy with the `password` field deleted (modelled
by blanking it). -/
def UserRec.toJSON (u : UserRec) : UserRec := { u with password := "" }

/-! ### Refresh-token ledger — `src/config/memoryDb.js`, `class RefreshTokenModel`

The JS store is `refreshTokens = new Map()` from token string to a
mutable `RefreshTokenModel` object; `save()` runs
`refreshTokens.set(this.token, this)`.  Because the controller mutates
the fetched object (`tokenDoc.token = ...`) before saving, several map
keys can alias one object.  The embedding therefore splits the store
into an object `heap` (reference number ↦ current object state) and the
map `index` (token key ↦ reference number). -/

/-- A `RefreshTokenModel` object's fields. -/
structure RTDoc where
  _id : String
  token : String
  userId : String
  expiresAt : Millis
  createdAt : Millis
deriving DecidableEq

/-- The refresh-token store: object heap plus the `refreshTokens` map. -/
structure Ledger where
  heap : List (Nat × RTDoc)
  index : List (String × Nat)
  nextRef : Nat
deriving DecidableEq

def Ledger.empty : Ledger := { heap := [], index := [], nextRef := 0 }

/-- JS `Map.prototype.set`: overwrite the value at an existing key,
else append a new entry (insertion order preserved). -/
def mapSet (m : List (String × Nat)) (k : String) (v : Nat) : List (String × Nat) :=
  if m.any (fun p => p.1 = k) then
    m.map (fun p => if p.1 = k then (k, v) else p)
  else m ++ [(k, v)]

/-- JS `Map.prototype.get` on the `refreshTokens` index. -/
def mapGetRef (m : List (String × Nat)) (k : String) : Option Nat :=
  (m.find? (fun p => p.1 = k)).map (fun p => p.2)

/-- Dereference an object in the heap. -/
def heapGet (h : List (Nat × RTDoc)) (r : Nat) : Option RTDoc :=
  (h.find? (fun p => p.1 = r)).map (fun p => p.2)

/-- Update (or allocate) the object at reference `r`. -/
def heapSet (h : List (Nat × RTDoc)) (r : Nat) (d : RTDoc) : List (Nat × RTDoc) :=
  if h.any (fun p => p.1 = r) then
    h.map (fun p => if p.1 = r then (r, d) else p)
  else h ++ [(r, d)]

/-- `tokenDoc.save()`: the object at `ref` now has state `d`, and
`refreshTokens.set(d.token, tokenDoc)` indexes it under its (current)
token value.  A stale index entry pointing at `ref` under a previous
token value is NOT removed — exactly as in the JS `Map`. -/
def Ledger.save (l : Ledger) (ref : Nat) (d : RTDoc) : Ledger :=
  { l with heap := heapSet l.heap ref d, index := mapSet l.index d.token ref }

/-- `RefreshTokenModel.create(data)`: construct a fresh object
(`freshId` stands for `uuidv4()`, `now` for `new Date()` in
`createdAt`) and `save()` it. -/
def Ledger.create (l : Ledger) (freshId token userId : String)
    (expiresAt now : Millis) : Ledger :=
  Ledger.save { l with nextRef := l.nextRef + 1 } l.nextRef
    { _id := freshId, token := token, userId := userId,
      expiresAt := expiresAt, createdAt := now }

/-- `RefreshTokenModel.findOne(query)` with the reference it went
through: `refreshTokens.get(query.token)`, then
`token && (!query.expiresAt || token.expiresAt > query.expiresAt.$gt)`. -/
def Ledger.findOneEntry (l : Ledger) (token : String) (gt : Option Millis) :
    Option (Nat × RTDoc) :=
  match mapGetRef l.index token with
  | none => none
  | some ref =>
      match heapGet l.heap ref with
      | none => none
      | some d =>
          if (match gt with | none => true | some t => decide (t < d.expiresAt)) then
            some (ref, d)
          else none

/-- `RefreshTokenModel.findOne(query)`: the returned document. -/
def Ledger.findOne (l : Ledger) (token : String) (gt : Option Millis) : Option RTDoc :=
  (l.findOneEntry token gt).map (fun p => p.2)

/-- `RefreshTokenModel.deleteOne({token})`: `refreshTokens.delete(token)`. -/
def Ledger.deleteOne (l : Ledger) (token : String) : Ledger :=
  { l with index := l.index.filter (fun p => p.1 ≠ token) }

/-! ### Session protocol, server side — `src/controllers/authController.js` -/

/-- `refreshAccessToken` response: status, `error` body field,
`accessToken` body field, and the `res.cookie('refreshToken', ...)`
value when set. -/
structure RefreshResponse where
  status : Nat
  error : Option String
  accessToken : Option SignedToken
  setCookie : Option String
deriving DecidableEq

/-- `refreshAccessToken(req, res)`: cookie → `findOne` with
`expiresAt: {$gt: new Date()}` → new access token, mutate the fetched
document (`token`, `expiresAt`) and `save()` it, reset the cookie.
`newRefreshToken` stands for the fresh `generateRefreshToken()` output. -/
def refreshAccessToken (cookie : Option String) (l : Ledger) (now : Millis)
    (newRefreshToken : String) : RefreshResponse × Ledger :=
  match cookie with
  | none =>
      ({ status := 401, error := some "未提供刷新令牌",
         accessToken := none, setCookie := none }, l)
  | some rt =>
      match l.findOneEntry rt (some now) with
      | none =>
          ({ status := 401, error := some "无效或已过期的刷新令牌",
             accessToken := none, setCookie := none }, l)
      | some (ref, tokenDoc) =>
          let accessToken := generateAccessToken tokenDoc.userId now
          let tokenDoc' := { tokenDoc with
            token := newRefreshToken, expiresAt := getRefreshTokenExpiry now }
          let l' := Ledger.save l ref tokenDoc'
          ({ status := 200, error := none,
             accessToken := some accessToken, setCookie := some newRefreshToken }, l')

/-- `logout` response: always `{message: '登出成功'}` with the cookie
cleared. -/
structure LogoutResponse where
  status : Nat
  message : Option String
  error : Option String
  clearedCookie : Bool
deriving DecidableEq

/-- `logout(req, res)`: delete the ledger record when a cookie is
present, clear the cookie, answer 200. -/
def logout (cookie : Option String) (l : Ledger) : LogoutResponse × Ledger :=
  let l' := match cookie with
            | some rt => l.deleteOne rt
            | none => l
  ({ status := 200, message := some "登出成功", error := none,
     clearedCookie := true }, l')

/-! ### Validation rules — `src/routes/auth.js` (express-validator)

express-validator runs every validator of every chain and
`validationResult` collects all failures, so the error list carries one
message per violated rule.  `isEmail` (validator.js) is abstracted as a
predicate parameter.  The password complexity regex
`/^(?=.*[a-z])(?=.*[A-Z])(?=.*\d)/` demands a lower-case letter, an
upper-case letter and a digit (ASCII classes); it is modelled by
scanning the whole string (the JS dot does not cross a newline, which
coincides on newline-free passwords). -/

/-- The three character-class tests of the complexity regex, scanning
the password's characters. -/
def passwordHasClasses (password : String) : Bool :=
  password.data.any Char.isLower && password.data.any Char.isUpper
    && password.data.any Char.isDigit

/-- JS `String.prototype.trim`: strip whitespace from both ends. -/
def jsTrim (s : String) : String :=
  String.mk (((s.data.dropWhile Char.isWhitespace).reverse.dropWhile Char.isWhitespace).reverse)

/-- JS `s.startsWith(pre)`, over the characters. -/
def jsStartsWith (s pre : String) : Bool :=
  pre.data.isPrefixOf s.data

/-- JS `s.substring(n)`, over the characters (the auth header is
ASCII, so code-unit and character indexing coincide). -/
def jsSubstringFrom (s : String) (n : Nat) : String :=
  String.mk (s.data.drop n)

/-- `body('password').isLength({min: 8}).matches(...)`: both validators
run; each failure contributes its `withMessage` text. -/
def passwordErrors (password : String) : List String :=
  (if password.length < 8 then ["密码至少需要8个字符"] else []) ++
  (if passwordHasClasses password then [] else ["密码必须包含大小写字母和数字"])

/-- `body('nickname').optional().trim().isLength({min: 2, max: 20})`:
skipped when the field is absent; otherwise the trimmed value must be
2–20 characters. -/
def nicknameErrors (nickname : Option String) : List String :=
  match nickname with
  | none => []
  | some n =>
      if 2 ≤ (jsTrim n).length ∧ (jsTrim n).length ≤ 20 then []
      else ["昵称长度应在2-20个字符之间"]

/-- `registerValidation`: the collected `errors.array()` in validator
order (email, password, nickname). -/
def registerValidation (isEmail : String → Bool) (email password : String)
    (nickname : Option String) : List String :=
  (if isEmail email then [] else ["请提供有效的邮箱地址"]) ++
  passwordErrors password ++ nicknameErrors nickname

/-- `loginValidation`: email format plus `body('password').notEmpty()`. -/
def loginValidation (isEmail : String → Bool) (email password : String) : List String :=
  (if isEmail email then [] else ["请提供有效的邮箱地址"]) ++
  (if password = "" then ["请输入密码"] else [])

/-! ### `register` and `login` controllers -/

/-- Response shape shared by `register` and `login`: HTTP status, the
`errors` array of a validation failure, the `error` string of a
business-rule failure, and the success fields. -/
structure AuthResponse where
  status : Nat
  errors : List String
  error : Option String
  message : Option String
  user : Option UserRec
  accessToken : Option SignedToken
  setCookie : Option String
deriving DecidableEq

/-- `register(req, res)`: validation result → duplicate-email check →
create user (`nickname: nickname || email.split('@')[0]`) → issue
tokens, store the refresh record, set the cookie, answer 201.
`freshUserId`/`freshDocId` stand for the generated uuids and
`newRefreshToken` for `generateRefreshToken()`. -/
def register (isEmail : String → Bool) (users : UserStore) (l : Ledger)
    (email password : String) (nickname : Option String) (now : Millis)
    (freshUserId freshDocId newRefreshToken : String) :
    AuthResponse × UserStore × Ledger :=
  let errs := registerValidation isEmail email password nickname
  if errs ≠ [] then
    ({ status := 400, errors := errs, error := none, message := none,
       user := none, accessToken := none, setCookie := none }, users, l)
  else
    match UserModel.findOne users email with
    | some _ =>
        ({ status := 400, errors := [], error := some "该邮箱已被注册", message := none,
           user := none, accessToken := none, setCookie := none }, users, l)
    | none =>
        let user := UserModel.new freshUserId email password
          (some (jsOrString nickname (emailLocal email)))
        let users' := UserModel.save users user
        let accessToken := generateAccessToken user._id now
        let l' := Ledger.create l freshDocId newRefreshToken user._id
          (getRefreshTokenExpiry now) now
        ({ status := 201, errors := [], error := none, message := some "注册成功",
           user := some user.toJSON, accessToken := some accessToken,
           setCookie := some newRefreshToken }, users', l')

/-- `login(req, res)`: validation result → `User.findOne({email})` →
`user.comparePassword(password)` (bcrypt, abstracted as `compare
candidate storedHash`) → stamp `lastLoginAt`, save, issue tokens, store
the refresh record, set the cookie.  Unknown email and wrong password
take distinct branches that build the identical 401 response. -/
def login (isEmail : String → Bool) (compare : String → String → Bool)
    (users : UserStore) (l : Ledger) (email password : String) (now : Millis)
    (freshDocId newRefreshToken : String) :
    AuthResponse × UserStore × Ledger :=
  let errs := loginValidation isEmail email password
  if errs ≠ [] then
    ({ status := 400, errors := errs, error := none, message := none,
       user := none, accessToken := none, setCookie := none }, users, l)
  else
    match UserModel.findOne users email with
    | none =>
        ({ status := 401, errors := [], error := some "邮箱或密码错误", message := none,
           user := none, accessToken := none, setCookie := none }, users, l)
    | some user =>
        if ¬ compare password user.password then
          ({ status := 401, errors := [], error := some "邮箱或密码错误", message := none,
             user := none, accessToken := none, setCookie := none }, users, l)
        else
          let user' := { user with lastLoginAt := some now }
          let users' := UserModel.save users user'
          let accessToken := generateAccessToken user'._id now
          let l' := Ledger.create l freshDocId newRefreshToken user'._id
            (getRefreshTokenExpiry now) now
          ({ status := 200, errors := [], error := none, message := some "登录成功",
             user := some user'.toJSON, accessToken := some accessToken,
             setCookie := some newRefreshToken }, users', l')

/-! ### Authentication middleware — `src/middleware/auth.js` -/

/-- Outcome of a middleware: either it answered the request itself
(status, `error` string, optional machine-checkable `code` such as
`TOKEN_EXPIRED`) or it called `next()`, with `req.user` attached when
`user` is `some`. -/
inductive MiddlewareOutcome where
  | respond (status : Nat) (error : String) (code : Option String)
  | next (user : Option UserRec)
deriving DecidableEq

/-- `authenticate(req, res, next)`.  `header` is
`req.headers.authorization`; `tokenOf` abstracts the JWT wire decoding
of `authHeader.substring(7)` (a string that is not a well-formed JWT
decodes to a token whose signature cannot verify, which `jsonwebtoken`
reports as the same `JsonWebTokenError` class). -/
def authenticate (users : UserStore) (tokenOf : String → SignedToken)
    (header : Option String) (now : Millis) : MiddlewareOutcome :=
  match header with
  | none => .respond 401 "未提供认证令牌" none
  | some h =>
      if ¬ jsStartsWith h "Bearer " then .respond 401 "未提供认证令牌" none
      else
        match verifyAccessToken (tokenOf (jsSubstringFrom h 7)) now with
        | .error .TokenExpiredError => .respond 401 "令牌已过期" (some "TOKEN_EXPIRED")
        | .error .JsonWebTokenError => .respond 401 "无效的令牌" none
        | .error .InvalidTypeError => .respond 500 "认证失败" none
        | .ok decoded =>
            match UserModel.findById users decoded.userId with
            | none => .respond 401 "用户不存在" none
            | some user => .next (some user)

/-- `optionalAuth(req, res, next)`: same extraction, but every failure
path (missing/malformed header, any verification error — the `catch`
block — or an unknown user) falls through to `next()`. -/
def optionalAuth (users : UserStore) (tokenOf : String → SignedToken)
    (header : Option String) (now : Millis) : MiddlewareOutcome :=
  match header with
  | none => .next none
  | some h =>
      if ¬ jsStartsWith h "Bearer " then .next none
      else
        match verifyAccessToken (tokenOf (jsSubstringFrom h 7)) now with
        | .error _ => .next none
        | .ok decoded => .next (UserModel.findById users decoded.userId)

/-! ### Client response interceptor — AuthContext (src/unnamed/part_006)

The axios response interceptor keeps one `isRefreshing` flag and a
`failedQueue` of pending continuations.  A 401 on a request that
already retried, or on a login/register call, is rejected outright; a
401 while a refresh is in flight queues the continuation; otherwise the
request sets `_retry`, sets the flag, and issues the single
`refreshToken()` call.  When that call settles, `processQueue` resolves
or rejects every queued continuation and the `finally` clears the
flag. -/

/-- A request observed by the interceptor with a 401 response:
its identifier, its `_retry` marker, and whether its URL contains
`/auth/login` or `/auth/register`. -/
structure Req where
  id : Nat
  retry : Bool
  isAuthUrl : Bool
deriving DecidableEq

/-- Interceptor state: the flag, the queue (request ids in arrival
order), the number of `refreshToken()` calls issued, the continuations
already settled (`true` = resolved with the new token, `false` =
rejected), and the requests rejected without entering the protocol. -/
structure InterceptorState where
  isRefreshing : Bool
  failedQueue : List Nat
  refreshCalls : Nat
  resumed : List (Nat × Bool)
  rejected : List Nat
deriving DecidableEq

/-- Handling of one 401 response, following the interceptor's branch
order: `_retry` set → reject; login/register URL → reject; refresh in
flight → push onto `failedQueue`; otherwise set the flag and issue the
refresh call. -/
def on401 (s : InterceptorState) (r : Req) : InterceptorState :=
  if r.retry then { s with rejected := s.rejected ++ [r.id] }
  else if r.isAuthUrl then { s with rejected := s.rejected ++ [r.id] }
  else if s.isRefreshing then { s with failedQueue := s.failedQueue ++ [r.id] }
  else { s with isRefreshing := true, refreshCalls := s.refreshCalls + 1 }

/-- The in-flight `refreshToken()` call settling with outcome `ok`:
`processQueue` resolves (`ok = true`) or rejects (`ok = false`) every
queued continuation, empties the queue, and the `finally` block clears
`isRefreshing`. -/
def settleRefresh (s : InterceptorState) (ok : Bool) : InterceptorState :=
  { s with resumed := s.resumed ++ s.failedQueue.map (fun i => (i, ok)),
           failedQueue := [], isRefreshing := false }

/-! ## Helper lemmas -/

/-- Deleting a key from the `refreshTokens` map removes every index
entry for that key. -/
theorem mapGetRef_filter_ne (m : List (String × Nat)) (k : String) :
    mapGetRef (m.filter (fun p => p.1 ≠ k)) k = none := by
  induction m with
  | nil => rfl
  | cons p m ih =>
      by_cases h : p.1 = k
      · rw [List.filter_cons_of_neg (by simp [h])]
        exact ih
      · rw [List.filter_cons_of_pos (by simp [h])]
        simp only [mapGetRef, List.find?, h, decide_eq_true_eq, decide_eq_false h]
        exact ih

/-- `Map.delete` is idempotent. -/
theorem deleteOne_idem (l : Ledger) (tok : String) :
    (l.deleteOne tok).deleteOne tok = l.deleteOne tok := by
  unfold Ledger.deleteOne
  simp [List.filter_filter]

/-- While a refresh is in flight, a burst of 401s on fresh protected
requests only appends their continuations to `failedQueue`: the flag,
the call count, the settled list and the rejected list are untouched. -/
theorem foldl_on401_refreshing (reqs : List Req) (s : InterceptorState)
    (hflag : s.isRefreshing = true)
    (hreqs : ∀ r ∈ reqs, r.retry = false ∧ r.isAuthUrl = false) :
    reqs.foldl on401 s
      = { s with failedQueue := s.failedQueue ++ reqs.map (fun r => r.id) } := by
  induction reqs generalizing s with
  | nil => simp
  | cons r rest ih =>
      have hr := hreqs r (by simp)
      have hrest : ∀ x ∈ rest, x.retry = false ∧ x.isAuthUrl = false :=
        fun x hx => hreqs x (by simp [hx])
      have hstep : on401 s r = { s with failedQueue := s.failedQueue ++ [r.id] } := by
        simp [on401, hr.1, hr.2, hflag]
      rw [List.foldl_cons, hstep,
        ih { s with failedQueue := s.failedQueue ++ [r.id] } hflag hrest]
      simp

/-! ## Claims -/

/-- Claim C1 (code bug witnessed): with the in-memory ledger, a
successful `refreshAccessToken` does NOT retire the pre-rotation token
value.  Starting from a ledger holding exactly the record
`{token: "t1", userId: "u1"}`, the refresh with cookie `"t1"` succeeds
(status 200), yet afterwards a `findValid`-style lookup with the old
value `"t1"` still returns the (rotated) record — the same record the
new value `"t2"` returns — and the `refreshTokens` map holds two
entries for the one session instead of one.  The cause:
`RefreshTokenModel.save` runs `refreshTokens.set(this.token, this)`
after the controller mutated `this.token`, leaving the stale key
`"t1"` in the map; both keys alias the same object, whose `expiresAt`
was also renewed. -/
theorem c1_rotation_leaves_old_token_alive :
    ((refreshAccessToken (some "t1")
        (Ledger.empty.create "d1" "t1" "u1" REFRESH_TOKEN_EXPIRES_IN 0) 1000 "t2").1.status
      = 200)
    ∧ (((refreshAccessToken (some "t1")
        (Ledger.empty.create "d1" "t1" "u1" REFRESH_TOKEN_EXPIRES_IN 0) 1000 "t2").2.findOne
          "t1" (some 1000)).isSome = true)
    ∧ ((refreshAccessToken (some "t1")
        (Ledger.empty.create "d1" "t1" "u1" REFRESH_TOKEN_EXPIRES_IN 0) 1000 "t2").2.findOne
          "t1" (some 1000)
      = (refreshAccessToken (some "t1")
        (Ledger.empty.create "d1" "t1" "u1" REFRESH_TOKEN_EXPIRES_IN 0) 1000 "t2").2.findOne
          "t2" (some 1000))
    ∧ ((refreshAccessToken (some "t1")
        (Ledger.empty.create "d1" "t1" "u1" REFRESH_TOKEN_EXPIRES_IN 0) 1000 "t2").2.index.length
      = 2) := by
  decide

/-- Claim C4: `refreshAccessToken` answers 401 `MissingToken` when the
cookie is absent and 401 `InvalidOrExpiredToken` whenever `findOne`
(the `findValid` lookup, filtering on `expiresAt > now`) yields
nothing; a record is only ever returned with `expiresAt` strictly
beyond `now`; and a lexically-present but expired record produces
exactly the response an absent record produces. -/
theorem c4_refresh_error_paths (l : Ledger) (now : Millis) (tok newTok : String) :
    ((refreshAccessToken none l now newTok).1
      = { status := 401, error := some "未提供刷新令牌",
          accessToken := none, setCookie := none })
    ∧ (l.findOne tok (some now) = none →
        (refreshAccessToken (some tok) l now newTok).1
          = { status := 401, error := some "无效或已过期的刷新令牌",
              accessToken := none, setCookie := none })
    ∧ (∀ d, l.findOne tok (some now) = some d → now < d.expiresAt)
    ∧ (∀ ref d, mapGetRef l.index tok = some ref → heapGet l.heap ref = some d →
        d.expiresAt ≤ now →
        (refreshAccessToken (some tok) l now newTok).1
          = (refreshAccessToken (some tok) (l.deleteOne tok) now newTok).1) := by
  refine ⟨rfl, ?_, ?_, ?_⟩
  · intro hnone
    have : l.findOneEntry tok (some now) = none := by
      unfold Ledger.findOne at hnone
      cases h : l.findOneEntry tok (some now) with
      | none => rfl
      | some e => rw [h] at hnone; simp at hnone
    simp [refreshAccessToken, this]
  · intro d hd
    cases href : mapGetRef l.index tok with
    | none => simp [Ledger.findOne, Ledger.findOneEntry, href] at hd
    | some ref =>
        cases hobj : heapGet l.heap ref with
        | none => simp [Ledger.findOne, Ledger.findOneEntry, href, hobj] at hd
        | some d' =>
            by_cases hlt : now < d'.expiresAt
            · simp [Ledger.findOne, Ledger.findOneEntry, href, hobj, hlt] at hd
              exact hd ▸ hlt
            · simp [Ledger.findOne, Ledger.findOneEntry, href, hobj, hlt] at hd
  · intro ref d href hobj hexp
    have h1 : l.findOneEntry tok (some now) = none := by
      simp [Ledger.findOneEntry, href, hobj, not_lt.mpr hexp]
    have hdel : mapGetRef (l.deleteOne tok).index tok = none :=
      mapGetRef_filter_ne l.index tok
    have h2 : (l.deleteOne tok).findOneEntry tok (some now) = none := by
      simp [Ledger.findOneEntry, hdel]
    simp [refreshAccessToken, h1, h2]

/-- Witness for C4 at concrete inputs: a ledger whose record for `"t2"`
expired at 500 and whose record for `"t1"` is valid until 9999, at
`now = 1000`: the missing-cookie conjunct, the invalid-token response
for the unknown token `"zzz"`, strictness of the expiry filter on
`"t1"`, and expired-equals-absent on `"t2"`. -/
theorem c4_refresh_error_paths_witness :
    ((refreshAccessToken none
        ((Ledger.empty.create "d1" "t1" "u1" 9999 0).create "d2" "t2" "u2" 500 0)
        1000 "n").1
      = { status := 401, error := some "未提供刷新令牌",
          accessToken := none, setCookie := none })
    ∧ ((refreshAccessToken (some "zzz")
        ((Ledger.empty.create "d1" "t1" "u1" 9999 0).create "d2" "t2" "u2" 500 0)
        1000 "n").1
      = { status := 401, error := some "无效或已过期的刷新令牌",
          accessToken := none, setCookie := none })
    ∧ (1000 < ({ _id := "d1", token := "t1", userId := "u1",
                 expiresAt := 9999, createdAt := 0 } : RTDoc).expiresAt)
    ∧ ((refreshAccessToken (some "t2")
        ((Ledger.empty.create "d1" "t1" "u1" 9999 0).create "d2" "t2" "u2" 500 0)
        1000 "n").1
      = (refreshAccessToken (some "t2")
        (((Ledger.empty.create "d1" "t1" "u1" 9999 0).create "d2" "t2" "u2" 500 0).deleteOne "t2")
        1000 "n").1) := by
  refine ⟨(c4_refresh_error_paths
      ((Ledger.empty.create "d1" "t1" "u1" 9999 0).create "d2" "t2" "u2" 500 0)
      1000 "zzz" "n").1,
    (c4_refresh_error_paths
      ((Ledger.empty.create "d1" "t1" "u1" 9999 0).create "d2" "t2" "u2" 500 0)
      1000 "zzz" "n").2.1 (by decide),
    (c4_refresh_error_paths
      ((Ledger.empty.create "d1" "t1" "u1" 9999 0).create "d2" "t2" "u2" 500 0)
      1000 "t1" "n").2.2.1
      { _id := "d1", token := "t1", userId := "u1", expiresAt := 9999, createdAt := 0 }
      (by decide),
    (c4_refresh_error_paths
      ((Ledger.empty.create "d1" "t1" "u1" 9999 0).create "d2" "t2" "u2" 500 0)
      1000 "t2" "n").2.2.2 1
      { _id := "d2", token := "t2", userId := "u2", expiresAt := 500, createdAt := 0 }
      (by decide) (by decide) (by decide)⟩

/-- Claim C6: `logout` is total and idempotent: every call answers 200
`登出成功` with the cookie cleared, whatever the cookie and ledger;
after `logout` with a cookie the ledger has no lookup path for that
token (under any expiry filter); and a second `logout` with the same
token returns the identical response and leaves the ledger exactly as
the first left it. -/
theorem c6_logout_idempotent_total (cookie : Option String) (tok : String) (l : Ledger) :
    ((logout cookie l).1
      = { status := 200, message := some "登出成功", error := none, clearedCookie := true })
    ∧ (∀ gt, ((logout (some tok) l).2).findOne tok gt = none)
    ∧ (logout (some tok) ((logout (some tok) l).2) = logout (some tok) l) := by
  refine ⟨?_, ?_, ?_⟩
  · cases cookie <;> rfl
  · intro gt
    have hdel : mapGetRef ((logout (some tok) l).2).index tok = none :=
      mapGetRef_filter_ne l.index tok
    simp [Ledger.findOne, Ledger.findOneEntry, hdel]
  · simp [logout, deleteOne_idem]

/-- Claim C3: a login attempt with an unknown email and a login attempt
with a known email but wrong password (any bcrypt comparator that
rejects it) produce the very same response — status 401 and the one
error string `邮箱或密码错误` — so nothing distinguishes the two cases.
Both attempts are assumed to pass the input-format validation (the
claim compares credential failures, not malformed requests). -/
theorem c3_login_uniform_invalid_credentials
    (isEmail : String → Bool) (compare : String → String → Bool)
    (users : UserStore) (l : Ledger) (e1 p1 e2 p2 : String)
    (now1 now2 : Millis) (d1 d2 rt1 rt2 : String) (u : UserRec)
    (hv1 : loginValidation isEmail e1 p1 = [])
    (hv2 : loginValidation isEmail e2 p2 = [])
    (h1 : UserModel.findOne users e1 = none)
    (h2 : UserModel.findOne users e2 = some u)
    (hp : compare p2 u.password = false) :
    (login isEmail compare users l e1 p1 now1 d1 rt1).1
      = (login isEmail compare users l e2 p2 now2 d2 rt2).1
    ∧ (login isEmail compare users l e1 p1 now1 d1 rt1).1.status = 401
    ∧ (login isEmail compare users l e1 p1 now1 d1 rt1).1.error = some "邮箱或密码错误" := by
  have r1 : (login isEmail compare users l e1 p1 now1 d1 rt1).1
      = { status := 401, errors := [], error := some "邮箱或密码错误", message := none,
          user := none, accessToken := none, setCookie := none } := by
    simp [login, hv1, h1]
  have r2 : (login isEmail compare users l e2 p2 now2 d2 rt2).1
      = { status := 401, errors := [], error := some "邮箱或密码错误", message := none,
          user := none, accessToken := none, setCookie := none } := by
    simp [login, hv2, h2, hp]
  exact ⟨r1.trans r2.symm, by rw [r1], by rw [r1]⟩

/-- Witness for C3: one user `bob@x.com`; an attempt with the unknown
email `alice@x.com` and an attempt with `bob@x.com` and a password the
comparator rejects yield the identical 401 response. -/
theorem c3_login_uniform_invalid_credentials_witness :
    (login (fun _ => true) (fun _ _ => false)
        [{ _id := "u1", email := "bob@x.com", password := "h", nickname := "bob",
           lastLoginAt := none }] Ledger.empty "alice@x.com" "pw1" 5 "d1" "r1").1
      = (login (fun _ => true) (fun _ _ => false)
        [{ _id := "u1", email := "bob@x.com", password := "h", nickname := "bob",
           lastLoginAt := none }] Ledger.empty "bob@x.com" "pw2" 6 "d2" "r2").1
    ∧ (login (fun _ => true) (fun _ _ => false)
        [{ _id := "u1", email := "bob@x.com", password := "h", nickname := "bob",
           lastLoginAt := none }] Ledger.empty "alice@x.com" "pw1" 5 "d1" "r1").1.status
      = 401 :=
  have h := c3_login_uniform_invalid_credentials (fun _ => true) (fun _ _ => false)
    [{ _id := "u1", email := "bob@x.com", password := "h", nickname := "bob",
       lastLoginAt := none }] Ledger.empty "alice@x.com" "pw1" "bob@x.com" "pw2" 5 6
    "d1" "d2" "r1" "r2"
    { _id := "u1", email := "bob@x.com", password := "h", nickname := "bob",
      lastLoginAt := none }
    (by decide) (by decide) (by decide) (by decide) (by decide)
  ⟨h.1, h.2.1⟩

/-- Claim C5 counterexample: the claim demands `Expired` for *any*
token past its embedded expiry and `WrongType` for *any* validly-signed
token of a foreign type, but the code checks the signature first and
the expiry before the type.  A forged-signature token past its expiry
fails with the invalid-signature error, and a validly-signed expired
token of type `refresh` fails with `Expired`, not `WrongType`. -/
theorem c5_counterexample :
    ({ userId := "u1", type := "access", exp := 0, sig := "forged" } : SignedToken).exp ≤ 1000
    ∧ verifyAccessToken { userId := "u1", type := "access", exp := 0, sig := "forged" } 1000
        = .error .JsonWebTokenError
    ∧ verifyAccessToken { userId := "u1", type := "access", exp := 0, sig := "forged" } 1000
        ≠ .error .TokenExpiredError
    ∧ ({ userId := "u1", type := "refresh", exp := 0, sig := JWT_SECRET } : SignedToken).sig
        = JWT_SECRET
    ∧ verifyAccessToken { userId := "u1", type := "refresh", exp := 0, sig := JWT_SECRET } 1000
        = .error .TokenExpiredError
    ∧ verifyAccessToken { userId := "u1", type := "refresh", exp := 0, sig := JWT_SECRET } 1000
        ≠ .error .InvalidTypeError := by
  decide

/-- Claim C5 as amended: verifying a token immediately after issuance
succeeds, returning the issued payload (same `userId`, type `access`);
a validly-signed, unexpired token whose type discriminator is not
`access` fails with the wrong-type error; and a validly-signed token
past its embedded expiry fails with `Expired` (an invalidly-signed
token fails with `InvalidSignature` regardless of expiry, and expiry is
checked before the type discriminator). -/
theorem c5_access_token_verification (u : String) (now : Millis) (t : SignedToken) :
    (verifyAccessToken (generateAccessToken u now) now = .ok (generateAccessToken u now)
      ∧ (generateAccessToken u now).userId = u
      ∧ (generateAccessToken u now).type = "access")
    ∧ (t.sig = JWT_SECRET → now < t.exp → t.type ≠ "access" →
        verifyAccessToken t now = .error .InvalidTypeError)
    ∧ (t.sig = JWT_SECRET → t.exp ≤ now →
        verifyAccessToken t now = .error .TokenExpiredError)
    ∧ (t.sig ≠ JWT_SECRET →
        verifyAccessToken t now = .error .JsonWebTokenError) := by
  refine ⟨⟨?_, rfl, rfl⟩, ?_, ?_, ?_⟩
  · simp [verifyAccessToken, jwtVerify, generateAccessToken, JWT_EXPIRES_IN_MS]
  · intro hsig hexp hty
    simp [verifyAccessToken, jwtVerify, hsig, not_le.mpr hexp, hty]
  · intro hsig hexp
    simp [verifyAccessToken, jwtVerify, hsig, hexp]
  · intro hsig
    simp [verifyAccessToken, jwtVerify, hsig]

/-- Witness for C5 (amended) at concrete tokens: issuance/verification
round-trip at time 0; wrong-type rejection of a live `refresh`-typed
token; expiry rejection of a stale `access`-typed token; signature
rejection of a forged token. -/
theorem c5_access_token_verification_witness :
    verifyAccessToken (generateAccessToken "u7" 0) 0 = .ok (generateAccessToken "u7" 0)
    ∧ verifyAccessToken { userId := "u7", type := "refresh", exp := 2000, sig := JWT_SECRET } 1000
        = .error .InvalidTypeError
    ∧ verifyAccessToken { userId := "u7", type := "access", exp := 500, sig := JWT_SECRET } 1000
        = .error .TokenExpiredError
    ∧ verifyAccessToken { userId := "u7", type := "access", exp := 2000, sig := "forged" } 1000
        = .error .JsonWebTokenError :=
  ⟨(c5_access_token_verification "u7" 0
      { userId := "u7", type := "refresh", exp := 2000, sig := JWT_SECRET }).1.1,
   (c5_access_token_verification "u7" 1000
      { userId := "u7", type := "refresh", exp := 2000, sig := JWT_SECRET }).2.1
      rfl (by decide) (by decide),
   (c5_access_token_verification "u7" 1000
      { userId := "u7", type := "access", exp := 500, sig := JWT_SECRET }).2.2.1
      rfl (by decide),
   (c5_access_token_verification "u7" 1000
      { userId := "u7", type := "access", exp := 2000, sig := "forged" }).2.2.2
      (by decide)⟩

/-- Claim C7: `register` answers 400 whenever a validation rule is
violated, and the `errors` array of that response carries the message
of *every* violated rule — the email-format message when the email is
malformed, the minimum-length message when the password is shorter
than 8, and the character-class message when an upper-case letter, a
lower-case letter or a digit is missing (the route expresses the three
class requirements as one combined rule).  When all rules pass but a
user with the email already exists, it answers 400 `该邮箱已被注册`. -/
theorem c7_register_validation_and_email_taken
    (isEmail : String → Bool) (users : UserStore) (l : Ledger)
    (email password : String) (nickname : Option String) (now : Millis)
    (a b c : String) :
    (isEmail email = false →
      "请提供有效的邮箱地址" ∈ (register isEmail users l email password nickname now a b c).1.errors
      ∧ (register isEmail users l email password nickname now a b c).1.status = 400)
    ∧ (password.length < 8 →
      "密码至少需要8个字符" ∈ (register isEmail users l email password nickname now a b c).1.errors
      ∧ (register isEmail users l email password nickname now a b c).1.status = 400)
    ∧ (passwordHasClasses password = false →
      "密码必须包含大小写字母和数字" ∈ (register isEmail users l email password nickname now a b c).1.errors
      ∧ (register isEmail users l email password nickname now a b c).1.status = 400)
    ∧ (registerValidation isEmail email password nickname = [] →
      ∀ u, UserModel.findOne users email = some u →
        (register isEmail users l email password nickname now a b c).1.status = 400
        ∧ (register isEmail users l email password nickname now a b c).1.error
            = some "该邮箱已被注册") := by
  refine ⟨?_, ?_, ?_, ?_⟩
  · intro hm
    have hmem : "请提供有效的邮箱地址" ∈ registerValidation isEmail email password nickname := by
      simp [registerValidation, hm]
    have hne : registerValidation isEmail email password nickname ≠ [] :=
      List.ne_nil_of_mem hmem
    constructor <;> simp [register, hne, hmem]
  · intro hm
    have hmem : "密码至少需要8个字符" ∈ registerValidation isEmail email password nickname := by
      simp [registerValidation, passwordErrors, hm]
    have hne : registerValidation isEmail email password nickname ≠ [] :=
      List.ne_nil_of_mem hmem
    constructor <;> simp [register, hne, hmem]
  · intro hm
    have hmem : "密码必须包含大小写字母和数字" ∈ registerValidation isEmail email password nickname := by
      simp [registerValidation, passwordErrors, hm]
    have hne : registerValidation isEmail email password nickname ≠ [] :=
      List.ne_nil_of_mem hmem
    constructor <;> simp [register, hne, hmem]
  · intro hok u hu
    constructor <;> simp [register, hok, hu]

/-- Witness for C7: the input `email := "bad"`, `password := "short"`
(rejected by the email checker, 5 characters, no upper-case, no digit)
collects all three messages in one 400 response, and a well-formed
registration for an already-taken email yields 400 `该邮箱已被注册`. -/
theorem c7_register_validation_and_email_taken_witness :
    ("请提供有效的邮箱地址" ∈ (register (fun _ => false) [] Ledger.empty
        "bad" "short" none 0 "a" "b" "c").1.errors
      ∧ (register (fun _ => false) [] Ledger.empty
        "bad" "short" none 0 "a" "b" "c").1.status = 400)
    ∧ ("密码至少需要8个字符" ∈ (register (fun _ => false) [] Ledger.empty
        "bad" "short" none 0 "a" "b" "c").1.errors)
    ∧ ("密码必须包含大小写字母和数字" ∈ (register (fun _ => false) [] Ledger.empty
        "bad" "short" none 0 "a" "b" "c").1.errors)
    ∧ ((register (fun _ => true)
        [{ _id := "u1", email := "bob@x.com", password := "h", nickname := "bob",
           lastLoginAt := none }] Ledger.empty
        "bob@x.com" "Passw0rd" none 0 "a" "b" "c").1.status = 400
      ∧ (register (fun _ => true)
        [{ _id := "u1", email := "bob@x.com", password := "h", nickname := "bob",
           lastLoginAt := none }] Ledger.empty
        "bob@x.com" "Passw0rd" none 0 "a" "b" "c").1.error = some "该邮箱已被注册") :=
  ⟨(c7_register_validation_and_email_taken (fun _ => false) [] Ledger.empty
      "bad" "short" none 0 "a" "b" "c").1 rfl,
   ((c7_register_validation_and_email_taken (fun _ => false) [] Ledger.empty
      "bad" "short" none 0 "a" "b" "c").2.1 (by decide)).1,
   ((c7_register_validation_and_email_taken (fun _ => false) [] Ledger.empty
      "bad" "short" none 0 "a" "b" "c").2.2.1 (by decide)).1,
   (c7_register_validation_and_email_taken (fun _ => true)
      [{ _id := "u1", email := "bob@x.com", password := "h", nickname := "bob",
         lastLoginAt := none }] Ledger.empty
      "bob@x.com" "Passw0rd" none 0 "a" "b" "c").2.2.2 (by decide)
      { _id := "u1", email := "bob@x.com", password := "h", nickname := "bob",
        lastLoginAt := none } (by decide)⟩

/-- Claim C10: a successful registration with the nickname absent
creates the user with the nickname defaulted to the part of the email
before the first `@`; the `UserModel` constructor applies the same
default to an empty-string nickname; and a supplied non-empty nickname
is stored exactly as given. -/
theorem c10_nickname_default
    (isEmail : String → Bool) (users : UserStore) (l : Ledger)
    (email password n : String) (now : Millis) (a b c : String)
    (hvNone : registerValidation isEmail email password none = [])
    (hvSome : registerValidation isEmail email password (some n) = [])
    (hnew : UserModel.findOne users email = none)
    (hn : n ≠ "") :
    ((register isEmail users l email password none now a b c).1.user.map
        (fun u => u.nickname) = some (emailLocal email))
    ∧ ((UserModel.new a email password (some "")).nickname = emailLocal email)
    ∧ ((register isEmail users l email password (some n) now a b c).1.user.map
        (fun u => u.nickname) = some n) := by
  refine ⟨?_, ?_, ?_⟩
  · have : jsOrString (some (jsOrString none (emailLocal email))) (emailLocal email)
        = emailLocal email := by
      simp [jsOrString]
    simp [register, hvNone, hnew, UserModel.new, UserRec.toJSON, this]
  · simp [UserModel.new, jsOrString]
  · have : jsOrString (some (jsOrString (some n) (emailLocal email))) (emailLocal email)
        = n := by
      simp [jsOrString, hn]
    simp [register, hvSome, hnew, UserModel.new, UserRec.toJSON, this]

/-- Witness for C10: registering `ann@mail.com` without a nickname
stores the nickname `ann`; the constructor defaults an empty nickname
the same way; registering with the nickname `Ann K` stores `Ann K`. -/
theorem c10_nickname_default_witness :
    ((register (fun _ => true) [] Ledger.empty
        "ann@mail.com" "Passw0rd" none 0 "a" "b" "c").1.user.map
        (fun u => u.nickname) = some (emailLocal "ann@mail.com"))
    ∧ ((UserModel.new "a" "ann@mail.com" "Passw0rd" (some "")).nickname
        = emailLocal "ann@mail.com")
    ∧ ((register (fun _ => true) [] Ledger.empty
        "ann@mail.com" "Passw0rd" (some "Ann K") 0 "a" "b" "c").1.user.map
        (fun u => u.nickname) = some "Ann K") :=
  c10_nickname_default (fun _ => true) [] Ledger.empty
    "ann@mail.com" "Passw0rd" "Ann K" 0 "a" "b" "c"
    (by decide) (by decide) (by decide) (by decide)

/-- Claim C8: the `authenticate` middleware answers 401 for a missing
or malformed bearer header; an expired access token yields a 401
whose body carries the machine-checkable discriminator `TOKEN_EXPIRED`;
an invalid-signature token yields a 401 without that discriminator and
a wrong-type token a response without it either (so the expired case
is the only one carrying `TOKEN_EXPIRED`); and on success the resolved
user is attached to the request context via `next()`. -/
theorem c8_authenticate_middleware
    (users : UserStore) (tokenOf : String → SignedToken) (hdr : String) (now : Millis) :
    (authenticate users tokenOf none now = .respond 401 "未提供认证令牌" none)
    ∧ (jsStartsWith hdr "Bearer " = false →
        authenticate users tokenOf (some hdr) now = .respond 401 "未提供认证令牌" none)
    ∧ (jsStartsWith hdr "Bearer " = true →
        (tokenOf (jsSubstringFrom hdr 7)).sig = JWT_SECRET → (tokenOf (jsSubstringFrom hdr 7)).exp ≤ now →
        authenticate users tokenOf (some hdr) now
          = .respond 401 "令牌已过期" (some "TOKEN_EXPIRED"))
    ∧ (jsStartsWith hdr "Bearer " = true →
        (tokenOf (jsSubstringFrom hdr 7)).sig ≠ JWT_SECRET →
        authenticate users tokenOf (some hdr) now = .respond 401 "无效的令牌" none)
    ∧ (jsStartsWith hdr "Bearer " = true →
        (tokenOf (jsSubstringFrom hdr 7)).sig = JWT_SECRET → now < (tokenOf (jsSubstringFrom hdr 7)).exp →
        (tokenOf (jsSubstringFrom hdr 7)).type ≠ "access" →
        authenticate users tokenOf (some hdr) now = .respond 500 "认证失败" none)
    ∧ (∀ u, jsStartsWith hdr "Bearer " = true →
        (tokenOf (jsSubstringFrom hdr 7)).sig = JWT_SECRET → now < (tokenOf (jsSubstringFrom hdr 7)).exp →
        (tokenOf (jsSubstringFrom hdr 7)).type = "access" →
        UserModel.findById users (tokenOf (jsSubstringFrom hdr 7)).userId = some u →
        authenticate users tokenOf (some hdr) now = .next (some u)) := by
  refine ⟨rfl, ?_, ?_, ?_, ?_, ?_⟩
  · intro hs
    simp [authenticate, hs]
  · intro hs hsig hexp
    simp [authenticate, hs, verifyAccessToken, jwtVerify, hsig, hexp]
  · intro hs hsig
    simp [authenticate, hs, verifyAccessToken, jwtVerify, hsig]
  · intro hs hsig hexp hty
    simp [authenticate, hs, verifyAccessToken, jwtVerify, hsig, not_le.mpr hexp, hty]
  · intro u hs hsig hexp hty hu
    simp [authenticate, hs, verifyAccessToken, jwtVerify, hsig, not_le.mpr hexp, hty, hu]

/-- Witness for C8 at concrete inputs: one stored user `u1`; a decoder
assigning a live valid `access` token to the wire string `"good"`, an
expired one to `"stale"`, a forged one to `"forged"`, and a live valid
`refresh`-typed one to everything else.  Missing header, malformed
header, expired (with `TOKEN_EXPIRED`), bad signature (no code), wrong
type (no code) and success are all exercised. -/
theorem c8_authenticate_middleware_witness :
    (authenticate
        [{ _id := "u1", email := "e@x.com", password := "h", nickname := "e",
           lastLoginAt := none }]
        (fun s =>
          if s = "good" then { userId := "u1", type := "access", exp := 2000, sig := JWT_SECRET }
          else if s = "stale" then { userId := "u1", type := "access", exp := 500, sig := JWT_SECRET }
          else if s = "forged" then { userId := "u1", type := "access", exp := 2000, sig := "x" }
          else { userId := "u1", type := "refresh", exp := 2000, sig := JWT_SECRET })
        none 1000 = .respond 401 "未提供认证令牌" none)
    ∧ (authenticate
        [{ _id := "u1", email := "e@x.com", password := "h", nickname := "e",
           lastLoginAt := none }]
        (fun s =>
          if s = "good" then { userId := "u1", type := "access", exp := 2000, sig := JWT_SECRET }
          else if s = "stale" then { userId := "u1", type := "access", exp := 500, sig := JWT_SECRET }
          else if s = "forged" then { userId := "u1", type := "access", exp := 2000, sig := "x" }
          else { userId := "u1", type := "refresh", exp := 2000, sig := JWT_SECRET })
        (some "Token abc") 1000 = .respond 401 "未提供认证令牌" none)
    ∧ (authenticate
        [{ _id := "u1", email := "e@x.com", password := "h", nickname := "e",
           lastLoginAt := none }]
        (fun s =>
          if s = "good" then { userId := "u1", type := "access", exp := 2000, sig := JWT_SECRET }
          else if s = "stale" then { userId := "u1", type := "access", exp := 500, sig := JWT_SECRET }
          else if s = "forged" then { userId := "u1", type := "access", exp := 2000, sig := "x" }
          else { userId := "u1", type := "refresh", exp := 2000, sig := JWT_SECRET })
        (some "Bearer stale") 1000 = .respond 401 "令牌已过期" (some "TOKEN_EXPIRED"))
    ∧ (authenticate
        [{ _id := "u1", email := "e@x.com", password := "h", nickname := "e",
           lastLoginAt := none }]
        (fun s =>
          if s = "good" then { userId := "u1", type := "access", exp := 2000, sig := JWT_SECRET }
          else if s = "stale" then { userId := "u1", type := "access", exp := 500, sig := JWT_SECRET }
          else if s = "forged" then { userId := "u1", type := "access", exp := 2000, sig := "x" }
          else { userId := "u1", type := "refresh", exp := 2000, sig := JWT_SECRET })
        (some "Bearer forged") 1000 = .respond 401 "无效的令牌" none)
    ∧ (authenticate
        [{ _id := "u1", email := "e@x.com", password := "h", nickname := "e",
           lastLoginAt := none }]
        (fun s =>
          if s = "good" then { userId := "u1", type := "access", exp := 2000, sig := JWT_SECRET }
          else if s = "stale" then { userId := "u1", type := "access", exp := 500, sig := JWT_SECRET }
          else if s = "forged" then { userId := "u1", type := "access", exp := 2000, sig := "x" }
          else { userId := "u1", type := "refresh", exp := 2000, sig := JWT_SECRET })
        (some "Bearer other") 1000 = .respond 500 "认证失败" none)
    ∧ (authenticate
        [{ _id := "u1", email := "e@x.com", password := "h", nickname := "e",
           lastLoginAt := none }]
        (fun s =>
          if s = "good" then { userId := "u1", type := "access", exp := 2000, sig := JWT_SECRET }
          else if s = "stale" then { userId := "u1", type := "access", exp := 500, sig := JWT_SECRET }
          else if s = "forged" then { userId := "u1", type := "access", exp := 2000, sig := "x" }
          else { userId := "u1", type := "refresh", exp := 2000, sig := JWT_SECRET })
        (some "Bearer good") 1000
      = .next (some { _id := "u1", email := "e@x.com", password := "h", nickname := "e",
                      lastLoginAt := none })) := by
  refine ⟨?_, ?_, ?_, ?_, ?_, ?_⟩
  · exact (c8_authenticate_middleware
      [{ _id := "u1", email := "e@x.com", password := "h", nickname := "e",
         lastLoginAt := none }]
      (fun s =>
        if s = "good" then { userId := "u1", type := "access", exp := 2000, sig := JWT_SECRET }
        else if s = "stale" then { userId := "u1", type := "access", exp := 500, sig := JWT_SECRET }
        else if s = "forged" then { userId := "u1", type := "access", exp := 2000, sig := "x" }
        else { userId := "u1", type := "refresh", exp := 2000, sig := JWT_SECRET })
      "zzz" 1000).1
  · exact (c8_authenticate_middleware
      [{ _id := "u1", email := "e@x.com", password := "h", nickname := "e",
         lastLoginAt := none }]
      (fun s =>
        if s = "good" then { userId := "u1", type := "access", exp := 2000, sig := JWT_SECRET }
        else if s = "stale" then { userId := "u1", type := "access", exp := 500, sig := JWT_SECRET }
        else if s = "forged" then { userId := "u1", type := "access", exp := 2000, sig := "x" }
        else { userId := "u1", type := "refresh", exp := 2000, sig := JWT_SECRET })
      "Token abc" 1000).2.1 (by decide)
  · exact (c8_authenticate_middleware
      [{ _id := "u1", email := "e@x.com", password := "h", nickname := "e",
         lastLoginAt := none }]
      (fun s =>
        if s = "good" then { userId := "u1", type := "access", exp := 2000, sig := JWT_SECRET }
        else if s = "stale" then { userId := "u1", type := "access", exp := 500, sig := JWT_SECRET }
        else if s = "forged" then { userId := "u1", type := "access", exp := 2000, sig := "x" }
        else { userId := "u1", type := "refresh", exp := 2000, sig := JWT_SECRET })
      "Bearer stale" 1000).2.2.1 (by decide) (by decide) (by decide)
  · exact (c8_authenticate_middleware
      [{ _id := "u1", email := "e@x.com", password := "h", nickname := "e",
         lastLoginAt := none }]
      (fun s =>
        if s = "good" then { userId := "u1", type := "access", exp := 2000, sig := JWT_SECRET }
        else if s = "stale" then { userId := "u1", type := "access", exp := 500, sig := JWT_SECRET }
        else if s = "forged" then { userId := "u1", type := "access", exp := 2000, sig := "x" }
        else { userId := "u1", type := "refresh", exp := 2000, sig := JWT_SECRET })
      "Bearer forged" 1000).2.2.2.1 (by decide) (by decide)
  · exact (c8_authenticate_middleware
      [{ _id := "u1", email := "e@x.com", password := "h", nickname := "e",
         lastLoginAt := none }]
      (fun s =>
        if s = "good" then { userId := "u1", type := "access", exp := 2000, sig := JWT_SECRET }
        else if s = "stale" then { userId := "u1", type := "access", exp := 500, sig := JWT_SECRET }
        else if s = "forged" then { userId := "u1", type := "access", exp := 2000, sig := "x" }
        else { userId := "u1", type := "refresh", exp := 2000, sig := JWT_SECRET })
      "Bearer other" 1000).2.2.2.2.1 (by decide) (by decide) (by decide) (by decide)
  · exact (c8_authenticate_middleware
      [{ _id := "u1", email := "e@x.com", password := "h", nickname := "e",
         lastLoginAt := none }]
      (fun s =>
        if s = "good" then { userId := "u1", type := "access", exp := 2000, sig := JWT_SECRET }
        else if s = "stale" then { userId := "u1", type := "access", exp := 500, sig := JWT_SECRET }
        else if s = "forged" then { userId := "u1", type := "access", exp := 2000, sig := "x" }
        else { userId := "u1", type := "refresh", exp := 2000, sig := JWT_SECRET })
      "Bearer good" 1000).2.2.2.2.2
      { _id := "u1", email := "e@x.com", password := "h", nickname := "e",
        lastLoginAt := none }
      (by decide) (by decide) (by decide) (by decide) (by decide)

/-- Claim C9: `optionalAuth` never answers the request itself — for
every header (absent, malformed, expired, forged, wrong-typed, or
referencing a deleted user) it calls `next()` — and the user is
attached to the request context exactly when the bearer token verifies
and the referenced user exists. -/
theorem c9_optionalAuth_never_fails
    (users : UserStore) (tokenOf : String → SignedToken)
    (header : Option String) (now : Millis) (u : UserRec) :
    (∃ ou, optionalAuth users tokenOf header now = .next ou)
    ∧ (optionalAuth users tokenOf header now = .next (some u) ↔
        ∃ h, header = some h ∧ jsStartsWith h "Bearer " = true ∧
          ∃ d, verifyAccessToken (tokenOf (jsSubstringFrom h 7)) now = .ok d
            ∧ UserModel.findById users d.userId = some u) := by
  constructor
  · cases header with
    | none => exact ⟨none, rfl⟩
    | some h =>
        by_cases hs : jsStartsWith h "Bearer "
        · cases hv : verifyAccessToken (tokenOf (jsSubstringFrom h 7)) now with
          | error e => exact ⟨none, by simp [optionalAuth, hs, hv]⟩
          | ok d => exact ⟨UserModel.findById users d.userId, by simp [optionalAuth, hs, hv]⟩
        · exact ⟨none, by simp [optionalAuth, hs]⟩
  · constructor
    · intro he
      cases header with
      | none => simp [optionalAuth] at he
      | some h =>
          refine ⟨h, rfl, ?_⟩
          by_cases hs : jsStartsWith h "Bearer "
          · refine ⟨hs, ?_⟩
            cases hv : verifyAccessToken (tokenOf (jsSubstringFrom h 7)) now with
            | error e => simp [optionalAuth, hs, hv] at he
            | ok d =>
                refine ⟨d, rfl, ?_⟩
                simpa [optionalAuth, hs, hv] using he
          · simp [optionalAuth, hs] at he
    · rintro ⟨h, rfl, hs, d, hv, hf⟩
      simp [optionalAuth, hs, hv, hf]

/-- Claim C2: single-flight refresh in the client interceptor.  From a
quiescent interceptor (`isRefreshing = false`, empty queue), a burst of
401s on protected, not-yet-retried requests issues exactly one
`refreshToken()` call: the first 401 raises the flag and triggers it,
every later 401 only appends its continuation to `failedQueue`, and no
continuation is settled before the refresh resolves; when it settles,
every queued continuation is resumed — all with the new token on
success, all rejected on failure — the queue is emptied and the flag
cleared. -/
theorem c2_single_flight_refresh
    (first : Req) (rest : List Req) (s0 : InterceptorState) (ok : Bool)
    (h0 : s0.isRefreshing = false) (hq : s0.failedQueue = [])
    (hf : first.retry = false ∧ first.isAuthUrl = false)
    (hr : ∀ r ∈ rest, r.retry = false ∧ r.isAuthUrl = false) :
    ((first :: rest).foldl on401 s0).refreshCalls = s0.refreshCalls + 1
    ∧ ((first :: rest).foldl on401 s0).isRefreshing = true
    ∧ ((first :: rest).foldl on401 s0).failedQueue = rest.map (fun r => r.id)
    ∧ ((first :: rest).foldl on401 s0).resumed = s0.resumed
    ∧ (settleRefresh ((first :: rest).foldl on401 s0) ok).resumed
        = s0.resumed ++ (rest.map (fun r => r.id)).map (fun i => (i, ok))
    ∧ (settleRefresh ((first :: rest).foldl on401 s0) ok).failedQueue = []
    ∧ (settleRefresh ((first :: rest).foldl on401 s0) ok).isRefreshing = false := by
  have hstep : on401 s0 first
      = { s0 with isRefreshing := true, refreshCalls := s0.refreshCalls + 1 } := by
    simp [on401, hf.1, hf.2, h0]
  have hfold : (first :: rest).foldl on401 s0
      = { s0 with isRefreshing := true, refreshCalls := s0.refreshCalls + 1,
                  failedQueue := s0.failedQueue ++ rest.map (fun r => r.id) } := by
    rw [List.foldl_cons, hstep,
      foldl_on401_refreshing rest _ rfl hr]
  rw [hfold, hq]
  simp [settleRefresh]

/-- Witness for C2: three concurrent 401s on fresh protected requests
1, 2, 3 from the quiescent state: one refresh call, requests 2 and 3
queued, nothing resumed early; a successful settle resumes both with
the new token. -/
theorem c2_single_flight_refresh_witness :
    (([⟨1, false, false⟩, ⟨2, false, false⟩, ⟨3, false, false⟩] :
        List Req).foldl on401
        { isRefreshing := false, failedQueue := [], refreshCalls := 0,
          resumed := [], rejected := [] }).refreshCalls = 0 + 1
    ∧ (([⟨1, false, false⟩, ⟨2, false, false⟩, ⟨3, false, false⟩] :
        List Req).foldl on401
        { isRefreshing := false, failedQueue := [], refreshCalls := 0,
          resumed := [], rejected := [] }).failedQueue = [2, 3]
    ∧ (settleRefresh
        (([⟨1, false, false⟩, ⟨2, false, false⟩, ⟨3, false, false⟩] :
          List Req).foldl on401
          { isRefreshing := false, failedQueue := [], refreshCalls := 0,
            resumed := [], rejected := [] }) true).resumed
      = [(2, true), (3, true)] := by
  have h := c2_single_flight_refresh ⟨1, false, false⟩
    [⟨2, false, false⟩, ⟨3, false, false⟩]
    { isRefreshing := false, failedQueue := [], refreshCalls := 0,
      resumed := [], rejected := [] } true rfl rfl (by decide) (by decide)
  exact ⟨h.1, h.2.2.1, h.2.2.2.2.1⟩

end Ailuyin
